import Mathlib

/-!
Shallow embedding of the GAP control core in
src/samples/BLEHeartRate/BLE_nRF51822/nRF51Gap.cpp, together with proofs of
the testable properties stated in spec.md.

The firmware collaborator (the sd_ble_gap_* softdevice calls) is modelled as
an oracle mapping each issued call to the numeric status code it returns,
with 0 standing for success (ERROR_NONE / NRF_SUCCESS, both 0 in the nRF SDK
headers).  Every operation returns its ble_error_t result together with the
list of firmware calls it issued, in order, so that properties of the form
"the firmware is never invoked" can be stated directly.  The ASSERT /
ASSERT_INT macros of the library (common/common.h, not under src/) are
modelled per spec section 7: on a failing firmware call the operation
returns the supplied error kind instead of halting.
-/

namespace NRF51Gap

/-- Error kinds of the BLE API (blecommon.h of the library, named in the
source's doc comments and return statements). -/
inductive ble_error_t where
  | BLE_ERROR_NONE
  | BLE_ERROR_BUFFER_OVERFLOW
  | BLE_ERROR_NOT_IMPLEMENTED
  | BLE_ERROR_PARAM_OUT_OF_RANGE
  deriving DecidableEq

/-- Modelled from the spec: the four AdvertisingType variants of
GapAdvertisingParams.h (not under src/), named as in the source's
comparisons. -/
inductive AdvertisingType_t where
  | ADV_CONNECTABLE_UNDIRECTED
  | ADV_CONNECTABLE_DIRECTED
  | ADV_SCANNABLE_UNDIRECTED
  | ADV_NON_CONNECTABLE_UNDIRECTED
  deriving DecidableEq

/-- Advertising parameter record: type, interval (units of 0.625 ms) and
timeout (seconds), as read through getAdvertisingType / getInterval /
getTimeout in the source. -/
structure GapAdvertisingParams where
  advertisingType : AdvertisingType_t
  interval : Nat
  timeout : Nat
  deriving DecidableEq

/-- Advertising payload: the raw byte buffer (getPayload / getPayloadLen)
and the 16-bit appearance code embedded in it (getAppearance). -/
structure GapAdvertisingData where
  payload : List Nat
  appearance : Nat
  deriving DecidableEq

/-- Mirrors GapAdvertisingData::getPayloadLen. -/
def GapAdvertisingData.getPayloadLen (d : GapAdvertisingData) : Nat :=
  d.payload.length

/-- The committed GAP state record (GapState_t): the advertising and
connected bits mutated by the source. -/
structure GapState where
  advertising : Bool
  connected : Bool
  deriving DecidableEq

/-- Modelled from the spec: maximum advertising payload length, 31 bytes
(GAP_ADVERTISING_DATA_MAX_PAYLOAD of GapAdvertisingData.h, not under
src/; spec sections 3 and 4.1 fix it at 31). -/
def GAP_ADVERTISING_DATA_MAX_PAYLOAD : Nat := 31

/-- Modelled from the spec: general minimum advertising interval
(GapAdvertisingParams.h, not under src/; 0x0020 in the library). -/
def GAP_ADV_PARAMS_INTERVAL_MIN : Nat := 0x0020

/-- Modelled from the spec: minimum advertising interval for non-connectable
advertising, strictly greater than the general minimum
(GapAdvertisingParams.h, not under src/; 0x00A0 in the library). -/
def GAP_ADV_PARAMS_INTERVAL_MIN_NONCON : Nat := 0x00A0

/-- Modelled from the spec: maximum advertising interval
(GapAdvertisingParams.h, not under src/; 0x4000 in the library). -/
def GAP_ADV_PARAMS_INTERVAL_MAX : Nat := 0x4000

/-- Modelled from the spec: maximum advertising timeout
(GapAdvertisingParams.h, not under src/; 0x3FFF in the library). -/
def GAP_ADV_PARAMS_TIMEOUT_MAX : Nat := 0x3FFF

/-- Modelled from the spec: HCI disconnect code for a remote-user-terminated
connection (ble_hci.h, not under src/; 0x13 in the Bluetooth spec). -/
def BLE_HCI_REMOTE_USER_TERMINATED_CONNECTION : Nat := 0x13

/-- Modelled from the spec: HCI disconnect code for unacceptable connection
interval (ble_hci.h, not under src/; 0x3B in the Bluetooth spec). -/
def BLE_HCI_CONN_INTERVAL_UNACCEPTABLE : Nat := 0x3B

/-- Modelled from the spec: the last of the four address-type variants of
addr_type_t (Gap.h, not under src/), numbered 0..3 in declaration order;
setAddress rejects any numeric tag above it. -/
def ADDR_TYPE_RANDOM_PRIVATE_NON_RESOLVABLE : Nat := 3

/-- Modelled from the spec: link-layer addresses are fixed 6-byte sequences
(ADDR_LEN of Gap.h, not under src/). -/
def ADDR_LEN : Nat := 6

/-- Modelled from the spec: address cycling disabled
(BLE_GAP_ADDR_CYCLE_MODE_NONE of the softdevice headers, not under src/;
value 0). -/
def BLE_GAP_ADDR_CYCLE_MODE_NONE : Nat := 0

/-- Modelled from the spec: caller-supplied disconnection reasons
(DisconnectionReason_t of Gap.h, not under src/).  The spec lists
RemoteUserTerminated and ConnIntervalUnacceptable and an open-ended rest;
OTHER_UNMAPPED_REASON stands for any variant the source's switch does not
name. -/
inductive DisconnectionReason_t where
  | REMOTE_USER_TERMINATED_CONNECTION
  | CONN_INTERVAL_UNACCEPTABLE
  | OTHER_UNMAPPED_REASON
  deriving DecidableEq

/-- One call issued to the firmware collaborator, with the arguments the
source passes. -/
inductive FwCall where
  | adv_data_set (advPayload : List Nat) (advLen : Nat)
      (scanPayload : List Nat) (scanLen : Nat)
  | appearance_set (appearance : Nat)
  | appearance_get
  | adv_start (advType : AdvertisingType_t) (interval : Nat) (timeout : Nat)
  | adv_stop
  | gap_disconnect (handle : Nat) (code : Nat)
  | address_set (cycleMode : Nat) (addrType : Nat) (addr : List Nat)
  deriving DecidableEq

/-- The firmware collaborator: the numeric status code each issued call
returns (0 = ERROR_NONE / NRF_SUCCESS = success). -/
abbrev Firmware := FwCall → Nat

/-- nRF51Gap::setAdvertisingData (nRF51Gap.cpp lines 61-105): validate the
primary payload (length at most 31 and nonzero), then forward both buffers
via sd_ble_gap_adv_data_set and re-assert the appearance via
sd_ble_gap_appearance_set, each guarded by ASSERT returning
BLE_ERROR_PARAM_OUT_OF_RANGE on firmware failure.  The scan-response size
check present in the source is commented out, so no local check is applied
to scanResponse.  The method never writes the state member; the embedding
returns it unchanged. -/
def setAdvertisingData (fw : Firmware) (st : GapState)
    (advData scanResponse : GapAdvertisingData) :
    ble_error_t × GapState × List FwCall :=
  if advData.getPayloadLen > GAP_ADVERTISING_DATA_MAX_PAYLOAD then
    (.BLE_ERROR_BUFFER_OVERFLOW, st, [])
  else if advData.getPayloadLen = 0 then
    (.BLE_ERROR_PARAM_OUT_OF_RANGE, st, [])
  else
    let c1 := FwCall.adv_data_set advData.payload advData.getPayloadLen
      scanResponse.payload scanResponse.getPayloadLen
    if fw c1 ≠ 0 then
      (.BLE_ERROR_PARAM_OUT_OF_RANGE, st, [c1])
    else
      let c2 := FwCall.appearance_set advData.appearance
      if fw c2 ≠ 0 then
        (.BLE_ERROR_PARAM_OUT_OF_RANGE, st, [c1, c2])
      else
        (.BLE_ERROR_NONE, st, [c1, c2])

/-- nRF51Gap::startAdvertising (nRF51Gap.cpp lines 126-176): reject
ADV_CONNECTABLE_DIRECTED as not implemented; check the interval against the
type-specific bound (stricter lower bound for ADV_NON_CONNECTABLE_UNDIRECTED,
lines 135-146, flattened here into one condition); the dead directed-type
timeout check (line 149) and the general timeout check (line 156); then call
sd_ble_gap_adv_start and set state.advertising on success. -/
def startAdvertising (fw : Firmware) (st : GapState)
    (params : GapAdvertisingParams) :
    ble_error_t × GapState × List FwCall :=
  if params.advertisingType = .ADV_CONNECTABLE_DIRECTED then
    (.BLE_ERROR_NOT_IMPLEMENTED, st, [])
  else if (params.advertisingType = .ADV_NON_CONNECTABLE_UNDIRECTED ∧
            (params.interval < GAP_ADV_PARAMS_INTERVAL_MIN_NONCON ∨
              params.interval > GAP_ADV_PARAMS_INTERVAL_MAX)) ∨
          (params.advertisingType ≠ .ADV_NON_CONNECTABLE_UNDIRECTED ∧
            (params.interval < GAP_ADV_PARAMS_INTERVAL_MIN ∨
              params.interval > GAP_ADV_PARAMS_INTERVAL_MAX)) then
    (.BLE_ERROR_PARAM_OUT_OF_RANGE, st, [])
  else if params.advertisingType = .ADV_CONNECTABLE_DIRECTED ∧
          params.timeout ≠ 0 then
    (.BLE_ERROR_PARAM_OUT_OF_RANGE, st, [])
  else if params.advertisingType ≠ .ADV_CONNECTABLE_DIRECTED ∧
          params.timeout > GAP_ADV_PARAMS_TIMEOUT_MAX then
    (.BLE_ERROR_PARAM_OUT_OF_RANGE, st, [])
  else
    let c := FwCall.adv_start params.advertisingType params.interval
      params.timeout
    if fw c ≠ 0 then
      (.BLE_ERROR_PARAM_OUT_OF_RANGE, st, [c])
    else
      (.BLE_ERROR_NONE, { st with advertising := true }, [c])

/-- nRF51Gap::stopAdvertising (nRF51Gap.cpp lines 194-202): call
sd_ble_gap_adv_stop, and clear state.advertising only on success. -/
def stopAdvertising (fw : Firmware) (st : GapState) :
    ble_error_t × GapState × List FwCall :=
  if fw .adv_stop ≠ 0 then
    (.BLE_ERROR_PARAM_OUT_OF_RANGE, st, [.adv_stop])
  else
    (.BLE_ERROR_NONE, { st with advertising := false }, [.adv_stop])

/-- The reason-to-code mapping inside nRF51Gap::disconnect (nRF51Gap.cpp
lines 225-233): code is initialised to the remote-user-terminated HCI code
and overwritten only by the two named switch cases, so every unnamed reason
keeps the default. -/
def disconnectReasonCode (reason : DisconnectionReason_t) : Nat :=
  match reason with
  | .REMOTE_USER_TERMINATED_CONNECTION =>
      BLE_HCI_REMOTE_USER_TERMINATED_CONNECTION
  | .CONN_INTERVAL_UNACCEPTABLE => BLE_HCI_CONN_INTERVAL_UNACCEPTABLE
  | _ => BLE_HCI_REMOTE_USER_TERMINATED_CONNECTION

/-- nRF51Gap::disconnect (nRF51Gap.cpp lines 220-239): clear the advertising
and connected bits first, map the reason to an HCI code, then call
sd_ble_gap_disconnect on the stored connection handle, returning
BLE_ERROR_PARAM_OUT_OF_RANGE when that call fails. -/
def disconnect (fw : Firmware) (st : GapState) (m_connectionHandle : Nat)
    (reason : DisconnectionReason_t) :
    ble_error_t × GapState × List FwCall :=
  let st1 : GapState := { advertising := false, connected := false }
  let code := disconnectReasonCode reason
  if fw (.gap_disconnect m_connectionHandle code) ≠ 0 then
    (.BLE_ERROR_PARAM_OUT_OF_RANGE, st1,
      [.gap_disconnect m_connectionHandle code])
  else
    (.BLE_ERROR_NONE, st1, [.gap_disconnect m_connectionHandle code])

/-- nRF51Gap::setAddress (nRF51Gap.cpp lines 307-320): reject any numeric
address-type tag above the last defined variant before any firmware call;
otherwise copy ADDR_LEN bytes and call sd_ble_gap_address_set with address
cycling disabled. -/
def setAddress (fw : Firmware) (addrType : Nat) (address : List Nat) :
    ble_error_t × List FwCall :=
  if addrType > ADDR_TYPE_RANDOM_PRIVATE_NON_RESOLVABLE then
    (.BLE_ERROR_PARAM_OUT_OF_RANGE, [])
  else
    let c := FwCall.address_set BLE_GAP_ADDR_CYCLE_MODE_NONE addrType
      (address.take ADDR_LEN)
    if fw c ≠ 0 then
      (.BLE_ERROR_PARAM_OUT_OF_RANGE, [c])
    else
      (.BLE_ERROR_NONE, [c])

/-- nRF51Gap::setAppearance (nRF51Gap.cpp lines 359-366): forward to
sd_ble_gap_appearance_set and succeed exactly when it returns
NRF_SUCCESS. -/
def setAppearance (fw : Firmware) (appearance : Nat) :
    ble_error_t × List FwCall :=
  if fw (.appearance_set appearance) = 0 then
    (.BLE_ERROR_NONE, [.appearance_set appearance])
  else
    (.BLE_ERROR_PARAM_OUT_OF_RANGE, [.appearance_set appearance])

/-- nRF51Gap::getAppearance (nRF51Gap.cpp lines 368-375): the source tests
the raw return code of sd_ble_gap_appearance_get for C truthiness instead of
comparing it with NRF_SUCCESS, so a NONZERO (failing) code takes the
BLE_ERROR_NONE branch and a zero (successful) code takes the
BLE_ERROR_PARAM_OUT_OF_RANGE branch. -/
def getAppearance (fw : Firmware) : ble_error_t × List FwCall :=
  if fw .appearance_get ≠ 0 then
    (.BLE_ERROR_NONE, [.appearance_get])
  else
    (.BLE_ERROR_PARAM_OUT_OF_RANGE, [.appearance_get])

/-- Claim C1: startAdvertising never mutates GapState.advertising when
parameter validation fails or the firmware adv_start call fails, and sets it
to true exactly when validation and the firmware call both succeed;
symmetrically, stopAdvertising leaves the state unchanged when adv_stop
fails and clears the advertising bit exactly on firmware success. -/
theorem startAdvertising_stopAdvertising_state_commit (fw : Firmware)
    (st : GapState) (params : GapAdvertisingParams) :
    ((startAdvertising fw st params).2.1 =
      if (startAdvertising fw st params).1 = .BLE_ERROR_NONE then
        { st with advertising := true }
      else st) ∧
    ((stopAdvertising fw st).2.1 =
      if (stopAdvertising fw st).1 = .BLE_ERROR_NONE then
        { st with advertising := false }
      else st) := by
  constructor
  · simp only [startAdvertising]
    split_ifs <;> simp_all
  · simp only [stopAdvertising]
    split_ifs <;> simp_all

/-- Claim C2: for every reason, connection handle, starting state and
firmware outcome, disconnect clears both the advertising and connected bits
regardless of the firmware result, and returns BLE_ERROR_NONE exactly when
the firmware disconnect call succeeds, BLE_ERROR_PARAM_OUT_OF_RANGE when it
fails. -/
theorem disconnect_clears_state_unconditionally (fw : Firmware)
    (st : GapState) (handle : Nat) (reason : DisconnectionReason_t) :
    (disconnect fw st handle reason).2.1.advertising = false ∧
    (disconnect fw st handle reason).2.1.connected = false ∧
    (disconnect fw st handle reason).1 =
      (if fw (.gap_disconnect handle (disconnectReasonCode reason)) = 0 then
        .BLE_ERROR_NONE
      else .BLE_ERROR_PARAM_OUT_OF_RANGE) := by
  unfold disconnect
  split_ifs <;> simp_all

/-- Claim C3: setAdvertisingData returns BLE_ERROR_BUFFER_OVERFLOW exactly
when the primary payload is longer than 31 bytes, returns
BLE_ERROR_PARAM_OUT_OF_RANGE with no firmware call issued exactly when the
primary payload is empty, and reaches the firmware (passes payload
validation) exactly when the primary payload length is between 1 and 31. -/
theorem setAdvertisingData_payload_validation (fw : Firmware) (st : GapState)
    (advData scanResponse : GapAdvertisingData) :
    ((setAdvertisingData fw st advData scanResponse).1 =
        .BLE_ERROR_BUFFER_OVERFLOW ↔ advData.payload.length > 31) ∧
    (((setAdvertisingData fw st advData scanResponse).1 =
        .BLE_ERROR_PARAM_OUT_OF_RANGE ∧
      (setAdvertisingData fw st advData scanResponse).2.2 = []) ↔
        advData.payload.length = 0) ∧
    ((setAdvertisingData fw st advData scanResponse).2.2 ≠ [] ↔
      (1 ≤ advData.payload.length ∧ advData.payload.length ≤ 31)) := by
  simp only [setAdvertisingData, GapAdvertisingData.getPayloadLen,
    GAP_ADVERTISING_DATA_MAX_PAYLOAD]
  split_ifs with h1 h2 h3 <;> simp_all <;>
    first
      | exact List.ne_nil_of_length_pos (by omega)
      | exact List.length_pos.mpr (by assumption)

/-- Claim C4: for every implemented advertising type (anything but
ADV_CONNECTABLE_DIRECTED) and a timeout within range, startAdvertising with
an always-succeeding firmware returns BLE_ERROR_PARAM_OUT_OF_RANGE exactly
when the interval lies outside the type-specific bound - the stricter
[MIN_NONCON, MAX] for ADV_NON_CONNECTABLE_UNDIRECTED and [MIN, MAX]
otherwise - and the non-connectable lower bound is strictly greater than the
general one. -/
theorem startAdvertising_interval_bounds (st : GapState)
    (ty : AdvertisingType_t) (interval timeout : Nat)
    (hty : ty ≠ .ADV_CONNECTABLE_DIRECTED)
    (hto : timeout ≤ GAP_ADV_PARAMS_TIMEOUT_MAX) :
    ((startAdvertising (fun _ => 0) st ⟨ty, interval, timeout⟩).1 =
        .BLE_ERROR_PARAM_OUT_OF_RANGE ↔
      (if ty = .ADV_NON_CONNECTABLE_UNDIRECTED then
        interval < GAP_ADV_PARAMS_INTERVAL_MIN_NONCON ∨
          GAP_ADV_PARAMS_INTERVAL_MAX < interval
      else
        interval < GAP_ADV_PARAMS_INTERVAL_MIN ∨
          GAP_ADV_PARAMS_INTERVAL_MAX < interval)) ∧
    GAP_ADV_PARAMS_INTERVAL_MIN < GAP_ADV_PARAMS_INTERVAL_MIN_NONCON := by
  constructor
  · simp only [startAdvertising]
    split_ifs <;> simp_all <;> omega
  · decide

/-- Witness for C4: a non-connectable request with interval 0 (below the
stricter lower bound) and timeout 0 is rejected as out of range. -/
theorem startAdvertising_interval_bounds_concrete :
    (startAdvertising (fun _ => 0) ⟨false, false⟩
        ⟨.ADV_NON_CONNECTABLE_UNDIRECTED, 0, 0⟩).1 =
      .BLE_ERROR_PARAM_OUT_OF_RANGE :=
  ((startAdvertising_interval_bounds ⟨false, false⟩
      .ADV_NON_CONNECTABLE_UNDIRECTED 0 0 (by decide) (by decide)).1).mpr
    (by decide)

/-- Claim C5: for every interval and timeout, startAdvertising with
advertising type ADV_CONNECTABLE_DIRECTED returns BLE_ERROR_NOT_IMPLEMENTED,
issues no firmware call, and leaves the state unchanged, so the interval and
timeout checks are never reached for that type. -/
theorem startAdvertising_directed_not_implemented (fw : Firmware)
    (st : GapState) (interval timeout : Nat) :
    (startAdvertising fw st
        ⟨.ADV_CONNECTABLE_DIRECTED, interval, timeout⟩).1 =
      .BLE_ERROR_NOT_IMPLEMENTED ∧
    (startAdvertising fw st
        ⟨.ADV_CONNECTABLE_DIRECTED, interval, timeout⟩).2.2 = [] ∧
    (startAdvertising fw st
        ⟨.ADV_CONNECTABLE_DIRECTED, interval, timeout⟩).2.1 = st := by
  simp [startAdvertising]

/-- Claim C6: when the primary payload passes validation, setAdvertisingData
issues the adv_data_set call carrying both buffers, and exactly when that
call succeeds also the appearance_set call carrying the appearance extracted
from advData; the result is BLE_ERROR_NONE when both firmware calls succeed
and BLE_ERROR_PARAM_OUT_OF_RANGE when either fails, and the state is
unchanged in every case. -/
theorem setAdvertisingData_forward_commit (fw : Firmware) (st : GapState)
    (advData scanResponse : GapAdvertisingData)
    (h1 : 1 ≤ advData.payload.length) (h2 : advData.payload.length ≤ 31) :
    ((setAdvertisingData fw st advData scanResponse).2.2 =
      if fw (.adv_data_set advData.payload advData.payload.length
          scanResponse.payload scanResponse.payload.length) = 0 then
        [.adv_data_set advData.payload advData.payload.length
            scanResponse.payload scanResponse.payload.length,
          .appearance_set advData.appearance]
      else
        [.adv_data_set advData.payload advData.payload.length
            scanResponse.payload scanResponse.payload.length]) ∧
    ((setAdvertisingData fw st advData scanResponse).1 =
      if fw (.adv_data_set advData.payload advData.payload.length
          scanResponse.payload scanResponse.payload.length) = 0 then
        (if fw (.appearance_set advData.appearance) = 0 then
          .BLE_ERROR_NONE
        else .BLE_ERROR_PARAM_OUT_OF_RANGE)
      else .BLE_ERROR_PARAM_OUT_OF_RANGE) ∧
    (setAdvertisingData fw st advData scanResponse).2.1 = st := by
  simp only [setAdvertisingData, GapAdvertisingData.getPayloadLen,
    GAP_ADVERTISING_DATA_MAX_PAYLOAD]
  split_ifs <;> simp_all <;> omega

/-- Witness for C6: a one-byte payload passes validation and the state is
left unchanged. -/
theorem setAdvertisingData_forward_commit_concrete :
    (setAdvertisingData (fun _ => 0) ⟨false, false⟩ ⟨[1], 0⟩ ⟨[], 0⟩).2.1 =
      ⟨false, false⟩ :=
  (setAdvertisingData_forward_commit (fun _ => 0) ⟨false, false⟩ ⟨[1], 0⟩
      ⟨[], 0⟩ (by decide) (by decide)).2.2

/-- Counterexample to C7 as stated: a 32-byte scan-response payload is NOT
rejected by setAdvertisingData - with a valid one-byte primary payload and a
firmware accepting every call, the operation returns BLE_ERROR_NONE. -/
theorem setAdvertisingData_oversized_scanResponse_accepted :
    (setAdvertisingData (fun _ => 0) ⟨false, false⟩ ⟨[0], 0⟩
        ⟨List.replicate 32 0, 0⟩).1 = .BLE_ERROR_NONE := by decide

/-- Amended C7: setAdvertisingData applies no local size check to the
scan-response payload at all - whenever the primary payload passes
validation and the firmware accepts, any scan-response (empty or longer
than 31 bytes alike) is forwarded unchecked and the operation succeeds; the
non-empty and 31-byte rules are enforced only on the primary payload. -/
theorem setAdvertisingData_scanResponse_unchecked (st : GapState)
    (advData scanResponse : GapAdvertisingData)
    (h1 : 1 ≤ advData.payload.length) (h2 : advData.payload.length ≤ 31) :
    (setAdvertisingData (fun _ => 0) st advData scanResponse).1 =
      .BLE_ERROR_NONE ∧
    (setAdvertisingData (fun _ => 0) st advData scanResponse).2.2 =
      [.adv_data_set advData.payload advData.payload.length
          scanResponse.payload scanResponse.payload.length,
        .appearance_set advData.appearance] := by
  simp only [setAdvertisingData, GapAdvertisingData.getPayloadLen,
    GAP_ADVERTISING_DATA_MAX_PAYLOAD]
  split_ifs <;> simp_all <;> omega

/-- Witness for amended C7: an empty scan-response is accepted and forwarded
alongside a valid primary payload. -/
theorem setAdvertisingData_scanResponse_unchecked_concrete :
    (setAdvertisingData (fun _ => 0) ⟨false, false⟩ ⟨[1], 5⟩ ⟨[], 0⟩).1 =
      .BLE_ERROR_NONE :=
  (setAdvertisingData_scanResponse_unchecked ⟨false, false⟩ ⟨[1], 5⟩ ⟨[], 0⟩
      (by decide) (by decide)).1

/-- Claim C8 (code bug): getAppearance tests the raw firmware return code
for C truthiness instead of comparing it with NRF_SUCCESS (= 0), so when the
firmware appearance_get call succeeds (code 0) it returns
BLE_ERROR_PARAM_OUT_OF_RANGE and when the call fails (code 1) it returns
BLE_ERROR_NONE - the exact inverse of the claimed contract - while
setAppearance implements the claimed contract correctly and neither touches
local state (the issued call lists show the single forwarded call). -/
theorem getAppearance_success_branch_inverted :
    (getAppearance (fun _ => 0)).1 = .BLE_ERROR_PARAM_OUT_OF_RANGE ∧
    (getAppearance (fun _ => 1)).1 = .BLE_ERROR_NONE ∧
    (getAppearance (fun _ => 0)).2 = [.appearance_get] ∧
    (setAppearance (fun _ => 0) 0).1 = .BLE_ERROR_NONE ∧
    (setAppearance (fun _ => 1) 0).1 = .BLE_ERROR_PARAM_OUT_OF_RANGE ∧
    (setAppearance (fun _ => 0) 0).2 = [.appearance_set 0] := by
  decide

/-- Claim C9: for every numeric address-type tag above the last defined
variant, setAddress returns BLE_ERROR_PARAM_OUT_OF_RANGE and issues no
firmware call. -/
theorem setAddress_rejects_out_of_range_type (fw : Firmware)
    (addrType : Nat) (address : List Nat)
    (h : ADDR_TYPE_RANDOM_PRIVATE_NON_RESOLVABLE < addrType) :
    (setAddress fw addrType address).1 = .BLE_ERROR_PARAM_OUT_OF_RANGE ∧
    (setAddress fw addrType address).2 = [] := by
  simp only [setAddress]
  split_ifs <;> simp_all

/-- Witness for C9: tag 4, one past the last defined variant, is rejected
with no firmware call even under an always-succeeding firmware. -/
theorem setAddress_rejects_out_of_range_type_concrete :
    (setAddress (fun _ => 0) 4 []).1 = .BLE_ERROR_PARAM_OUT_OF_RANGE ∧
    (setAddress (fun _ => 0) 4 []).2 = [] :=
  setAddress_rejects_out_of_range_type (fun _ => 0) 4 [] (by decide)

/-- Claim C10: the disconnect reason-to-code mapping sends
REMOTE_USER_TERMINATED_CONNECTION and CONN_INTERVAL_UNACCEPTABLE to their
respective HCI codes, sends every other reason to the
remote-user-terminated code by default, and therefore always produces one
of the two valid codes. -/
theorem disconnectReasonCode_total_mapping (reason : DisconnectionReason_t) :
    disconnectReasonCode .REMOTE_USER_TERMINATED_CONNECTION =
      BLE_HCI_REMOTE_USER_TERMINATED_CONNECTION ∧
    disconnectReasonCode .CONN_INTERVAL_UNACCEPTABLE =
      BLE_HCI_CONN_INTERVAL_UNACCEPTABLE ∧
    (reason ≠ .REMOTE_USER_TERMINATED_CONNECTION →
      reason ≠ .CONN_INTERVAL_UNACCEPTABLE →
      disconnectReasonCode reason =
        BLE_HCI_REMOTE_USER_TERMINATED_CONNECTION) ∧
    (disconnectReasonCode reason =
        BLE_HCI_REMOTE_USER_TERMINATED_CONNECTION ∨
      disconnectReasonCode reason = BLE_HCI_CONN_INTERVAL_UNACCEPTABLE) := by
  cases reason <;> simp [disconnectReasonCode]

end NRF51Gap
